import Mathlib

/-!
# Verification of the simplecmake CMake-server client (src/src/cmake.ts)

Shallow embedding of the protocol engine of the vscode-cmake extension:
the pipe data handler (frame decoding), the module-level session state,
`receiveMessage`, `parseCodemodel`, `getTargets`, `stop`, the facade verbs
(`configure`, `build`) and the version gate in `start`.

Modelling conventions:
- Machine-level concerns (the actual socket, the child process, the file
  system) are abstracted as `Action` events emitted by the functions; the
  mutable module-level variables of cmake.ts become the fields of
  `CMakeState`, and every function returns the new state paired with the
  list of actions it performed, in order.
- `logger.log` calls become `Action.logLine` events; `logger.debug` calls
  are tracing noise and are not modelled.
- External read-only collaborators (settings, the selected kit and
  generator, the workspace paths) are the fields of `Env`, fetched at the
  moment a request is built, exactly as the source does.
-/

namespace SimpleCMake

/-! ## Frame decoding (the pipe `data` handler in `start`)

The data handler receives a chunk of bytes, converts it to a string, and
accepts it only when the chunk itself starts with the 24-character opening
delimiter and ends with the 24-character closing delimiter; otherwise it
logs "invalid data" and returns, keeping no buffer.  An accepted chunk is
decoded by slicing off 24 characters at each end (`data.slice(24, -24)`);
the JSON text in between is the decoded message. -/

/-- The opening frame delimiter written and expected by cmake.ts. -/
def frameOpen : List Char := "\n[== \"CMake Server\" ==[\n".data

/-- The closing frame delimiter written and expected by cmake.ts. -/
def frameClose : List Char := "\n]== \"CMake Server\" ==]\n".data

/-- JavaScript `data.slice(24, -24)`: the characters from index 24 up to
(but excluding) index `data.length - 24`. -/
def sliceOffDelimiters (data : List Char) : List Char :=
  (data.drop 24).take (data.length - 48)

/-- The body of the pipe `data` event handler: `some payload` when the
chunk is accepted and decoded, `none` when the chunk is logged as invalid
and dropped.  Mirrors cmake.ts lines 1278-1291. -/
def handleData (data : List Char) : Option (List Char) :=
  if frameOpen.isPrefixOf data && frameClose.isSuffixOf data then
    some (sliceOffDelimiters data)
  else
    none

/-- Decoding of a whole sequence of receive events: each chunk is handled
independently (the handler keeps no state between events). -/
def deliver (chunks : List (List Char)) : List (List Char) :=
  chunks.filterMap handleData

/-- A complete frame for a given payload. -/
def mkFrame (payload : List Char) : List Char :=
  frameOpen ++ payload ++ frameClose

theorem frameOpen_length : frameOpen.length = 24 := by decide

theorem frameClose_length : frameClose.length = 24 := by decide

theorem handleData_mkFrame (payload : List Char) :
    handleData (mkFrame payload) = some payload := by
  have hopen : frameOpen.isPrefixOf (mkFrame payload) = true := by
    rw [List.isPrefixOf_iff_prefix]
    exact ⟨payload ++ frameClose, by simp [mkFrame]⟩
  have hclose : frameClose.isSuffixOf (mkFrame payload) = true := by
    rw [List.isSuffixOf_iff_suffix]
    exact ⟨frameOpen ++ payload, by simp [mkFrame]⟩
  have hlen : (mkFrame payload).length = 24 + payload.length + 24 := by
    simp [mkFrame, frameOpen_length, frameClose_length]
    omega
  rw [handleData, hopen, hclose]
  simp only [Bool.and_self, if_pos]
  rw [sliceOffDelimiters, hlen]
  have hdrop : (mkFrame payload).drop 24 = payload ++ frameClose := by
    have : (mkFrame payload).drop 24 = (frameOpen ++ (payload ++ frameClose)).drop frameOpen.length := by
      rw [frameOpen_length, mkFrame, List.append_assoc]
    rw [this, List.drop_left]
  rw [hdrop]
  have harith : 24 + payload.length + 24 - 48 = payload.length := by omega
  rw [harith]
  rw [List.take_left]

/-! ## Targets (class `Target` and `TargetType` in cmake.ts) -/

/-- `const enum TargetType` of cmake.ts. -/
inductive TargetType where
  | Executable
  | SharedLibrary
  | StaticLibrary
  | Utility
  | Unsupported
deriving DecidableEq

/-- `class Target` of cmake.ts: a name and a type. -/
structure Target where
  name : String
  type : TargetType
deriving DecidableEq

/-- `Target.getType`: maps CMake's codemodel type string to `TargetType`;
anything unrecognised is `Unsupported`. -/
def Target.getType (type : String) : TargetType :=
  if type = "EXECUTABLE" then TargetType.Executable
  else if type = "SHARED_LIBRARY" then TargetType.SharedLibrary
  else if type = "STATIC_LIBRARY" then TargetType.StaticLibrary
  else if type = "UTILITY" then TargetType.Utility
  else TargetType.Unsupported

/-! ## Incoming messages

A decoded server message is a JavaScript object; the fields cmake.ts reads
are modelled as optional fields (a JS `undefined` is `none`).  The
codemodel reply carries its `configurations` array on the message itself. -/

/-- One entry of a hello message's `supportedProtocolVersions` array. -/
structure ProtocolVersion where
  major : Int
deriving DecidableEq

/-- One entry of a project's `targets` array in a codemodel reply. -/
structure TargetJson where
  name? : Option String
  type : String
deriving DecidableEq

/-- One entry of a configuration's `projects` array in a codemodel reply. -/
structure ProjectJson where
  name : String
  targets? : Option (List TargetJson)
deriving DecidableEq

/-- One entry of a codemodel reply's `configurations` array. -/
structure ConfigurationJson where
  name : String
  projects? : Option (List ProjectJson)
deriving DecidableEq

/-- A decoded incoming message, restricted to the fields cmake.ts reads. -/
structure Message where
  type? : Option String
  message? : Option String
  inReplyTo? : Option String
  errorMessage? : Option String
  name? : Option String
  cookie? : Option String
  supportedProtocolVersions : List ProtocolVersion
  configurations? : Option (List ConfigurationJson)
deriving DecidableEq

/-- A message with every optional field absent. -/
def Message.empty : Message :=
  ⟨none, none, none, none, none, none, [], none⟩

/-- A `reply` message with the given cookie and `inReplyTo`. -/
def Message.mkReply (cookie inReplyTo : String) : Message :=
  { Message.empty with
      type? := some "reply"
      cookie? := some cookie
      inReplyTo? := some inReplyTo }

/-- A `reply` to `codemodel` carrying a `configurations` array. -/
def Message.mkCodemodelReply (cookie : String)
    (configurations : List ConfigurationJson) : Message :=
  { Message.mkReply cookie "codemodel" with configurations? := some configurations }

/-- A `signal` message with the given name. -/
def Message.mkSignal (name : String) : Message :=
  { Message.empty with
      type? := some "signal"
      name? := some name }

/-- A `hello` message advertising the given protocol versions. -/
def Message.mkHello (versions : List ProtocolVersion) : Message :=
  { Message.empty with
      type? := some "hello"
      supportedProtocolVersions := versions }

/-! ## Environment (external read-only collaborators) -/

/-- The slice of `class Kit` (kits.ts) read by cmake.ts. -/
structure Kit where
  compiler : String
  linker : String
deriving DecidableEq

/-- The external configuration read by cmake.ts at the moment a request is
built: settings, workspace paths and the selected kit/generator. -/
structure Env where
  /-- `_baseCookie`, constant for the whole editor process. -/
  baseCookie : String
  /-- `utils.settings.get("configuration")`: the active build variant. -/
  activeConfiguration : String
  /-- `getSourceDirectory()`. -/
  sourceDirectory : String
  /-- `getBuildDirectory()`. -/
  buildDirectory : String
  /-- the `simplecmake.generator` setting (default "Ninja"). -/
  generatorName : String
  /-- `getKit()`: the selected kit, if any. -/
  kit? : Option Kit
  /-- `getGenerator()`: the selected generator's extra build options, if any. -/
  generatorOptions? : Option (List String)
  /-- `getTarget()`: the selected target name, if any. -/
  targetName? : Option String
  /-- `getParallelJobs()`. -/
  parallelJobs : Nat
  /-- whether `fs.existsSync(getCacheFile())` holds. -/
  cacheFileExists : Bool
deriving DecidableEq

/-! ## Session state (the module-level mutable variables of cmake.ts) -/

/-- The one-shot continuation closures stored in `_postConfiguration`
(`launchBuild` / `launchClean` / `launchInstall`). -/
inductive Cont where
  | launchBuild
  | launchClean
  | launchInstall
deriving DecidableEq

/-- The module-level mutable state of cmake.ts. -/
structure CMakeState where
  /-- `_cmakePid`: -1 when no server process is recorded. -/
  cmakePid : Int
  /-- `_cmakePipe`: true when the socket is non-null. -/
  cmakePipe : Bool
  /-- `_cmakeStarted`. -/
  cmakeStarted : Bool
  /-- `_configured`. -/
  configured : Bool
  /-- `_targets`: a string-keyed JS object, insertion-ordered. -/
  targets : List (String × Target)
  /-- `_postConfiguration`. -/
  postConfiguration : Option Cont
  /-- `_postHandshake`. -/
  postHandshake : Option Cont
deriving DecidableEq

/-- `isRunning()`: pid recorded and pipe up. -/
def isRunning (s : CMakeState) : Bool :=
  s.cmakePid != -1 && s.cmakePipe

/-! ## Observable actions

Everything cmake.ts does besides mutating its module state: user-visible
log lines, wire sends, process/file-system side effects. -/

/-- The requests cmake.ts sends over the wire. -/
inductive OutMsg where
  | handshake (sourceDirectory buildDirectory generator : String)
  | globalSettings
  | configure (cacheArguments : List String)
  | compute
  | codemodel
deriving DecidableEq

/-- An observable side effect, in the order performed.  `send` records the
cookie that `sendMessage` stamps on every outgoing request. -/
inductive Action where
  | send (cookie : String) (msg : OutMsg)
  | logLine (line : String)
  | killProcess (pid : Int)
  | closePipe
  | deleteCacheFile
  | execBuild (args : List String)
  | execClean (args : List String)
  | execInstall (args : List String)
deriving DecidableEq

/-- `stop()`: kill the recorded process (clearing the pid first), close the
pipe, clear the started flag. -/
def stop (s : CMakeState) : CMakeState × List Action :=
  let killActs := if s.cmakePid != -1 then [Action.killProcess s.cmakePid] else []
  let closeActs := if s.cmakePipe then [Action.closePipe] else []
  ({ s with
      cmakePid := -1
      cmakePipe := false
      cmakeStarted := false },
   killActs ++ closeActs)

/-- `getTargets()`: the synthetic `"[all]"` entry followed by the names in
`_targets`, in insertion order. -/
def getTargets (s : CMakeState) : List String :=
  "[all]" :: s.targets.map Prod.fst

/-! ## Codemodel parsing (`parseCodemodel`) -/

/-- JavaScript `String.prototype.toLowerCase()` (ASCII range, which covers
CMake configuration names), character by character. -/
def jsToLowerCase (s : String) : String :=
  ⟨s.data.map Char.toLower⟩

/-- Assignment `_targets[name] = value` on a string-keyed JS object: an
existing key is overwritten in place, a new key is appended. -/
def jsObjectSet (m : List (String × Target)) (key : String) (value : Target) :
    List (String × Target) :=
  if m.any fun p => p.1 = key then
    m.map fun p => if p.1 = key then (key, value) else p
  else
    m ++ [(key, value)]

/-- The innermost loop of `parseCodemodel` over a project's `targets`
array.  The accumulator carries (`foundTarget`, `_targets`). -/
def parseTargetEntries (ts : List TargetJson)
    (acc : Bool × List (String × Target)) : Bool × List (String × Target) :=
  ts.foldl
    (fun acc t =>
      match t.name? with
      | none => acc
      | some name =>
        let type := Target.getType t.type
        if type = TargetType.Unsupported then acc
        else (true, jsObjectSet acc.2 name ⟨name, type⟩))
    acc

/-- The loop of `parseCodemodel` over a configuration's `projects` array;
a project without a `targets` field is skipped. -/
def parseProjectEntries (ps : List ProjectJson)
    (acc : Bool × List (String × Target)) : Bool × List (String × Target) :=
  ps.foldl
    (fun acc project =>
      match project.targets? with
      | none => acc
      | some ts => parseTargetEntries ts acc)
    acc

/-- The outer loop of `parseCodemodel` over the `configurations` array.
The accumulator carries (`foundConfiguration`, `foundTarget`, `_targets`);
a configuration matches when its name equals the active configuration
case-insensitively; a matching configuration without a `projects` field is
skipped (but still counts as found). -/
def parseConfigurationEntries (active : String) (cs : List ConfigurationJson)
    (acc : Bool × Bool × List (String × Target)) :
    Bool × Bool × List (String × Target) :=
  cs.foldl
    (fun acc config =>
      if jsToLowerCase config.name = jsToLowerCase active then
        match config.projects? with
        | none => (true, acc.2.1, acc.2.2)
        | some ps =>
          let inner := parseProjectEntries ps (acc.2.1, acc.2.2)
          (true, inner.1, inner.2)
      else acc)
    acc

/-- `parseCodemodel`: clears `_targets`, walks
configurations → projects → targets, and returns
(success, the new `_targets`, the log lines emitted).  Failure cases: no
`configurations` field, no configuration matching the active build
variant, or a matching configuration with zero recognised targets. -/
def parseCodemodel (env : Env) (msg : Message) :
    Bool × List (String × Target) × List Action :=
  match msg.configurations? with
  | none =>
    (false, [], [Action.logLine "error parsing code model: no 'configurations' field"])
  | some configs =>
    let r := parseConfigurationEntries env.activeConfiguration configs (false, false, [])
    if r.1 = false then
      (false, r.2.2,
       [Action.logLine
         ("error parsing code model: couldn't find configuration (" ++
          env.activeConfiguration ++ ")")])
    else if r.2.1 = false then
      (false, r.2.2,
       [Action.logLine
         ("error parsing code model: couldn't find any target in configuration (" ++
          env.activeConfiguration ++ ")")])
    else
      (true, r.2.2, [])

/-! ## The facade verbs' deferred bodies (`launchBuild` etc.) -/

/-- The `cmake --build` argument list constructed by `launchBuild`. -/
def buildArgs (env : Env) : List String :=
  let base := ["--build", env.buildDirectory, "--parallel", toString env.parallelJobs]
  let withTarget :=
    match env.targetName? with
    | some t => base ++ ["--target", t]
    | none => base
  match env.generatorOptions? with
  | some opts => withTarget ++ ["--"] ++ opts
  | none => withTarget

/-- Run a stored one-shot continuation: the bodies of `launchBuild`,
`launchClean` and `launchInstall`.  `launchBuild` re-checks the kit and
aborts with a log line when none is selected; none of them mutate the
session state. -/
def runCont (env : Env) : Cont → List Action
  | Cont.launchBuild =>
    match env.kit? with
    | none => [Action.logLine "building...", Action.logLine "Not kit selected"]
    | some _ => [Action.logLine "building...", Action.execBuild (buildArgs env)]
  | Cont.launchClean =>
    [Action.logLine "cleaning...",
     Action.execClean ["--build", env.buildDirectory, "--target", "clean"]]
  | Cont.launchInstall =>
    [Action.logLine "installing...",
     Action.execInstall ["--build", env.buildDirectory, "--target", "install"]]

/-! ## `receiveMessage` -/

/-- `receiveMessage`: dispatch one decoded server message, returning the
new session state and the actions performed (mirrors cmake.ts lines
1015-1181; `logger.debug` calls are not modelled, `JSON.stringify` dumps in
the unhandled branches are elided to fixed log lines). -/
def receiveMessage (env : Env) (s : CMakeState) (msg : Message) :
    CMakeState × List Action :=
  match msg.type? with
  | none => (s, [Action.logLine "server - invalid message layout. Missing type"])
  | some ty =>
    if ty = "message" then
      (s, [Action.logLine (msg.message?.getD "undefined")])
    else if ty = "error" then
      (s, [Action.logLine
            ("error: " ++ msg.inReplyTo?.getD "undefined" ++ " - " ++
             msg.errorMessage?.getD "undefined")])
    else if ty = "signal" then
      match msg.name? with
      | some "dirty" => ({ s with configured := false }, [])
      | some "fileChange" => (s, [])
      | _ => (s, [])
    else if ty = "hello" then
      let supported := msg.supportedProtocolVersions.any fun v => v.major == 1
      if supported = false then
        (s, [Action.logLine "server - protocol version 1.x not supported. Please update your CMake to a more recent version."])
      else
        (s, [Action.send env.baseCookie
              (OutMsg.handshake env.sourceDirectory env.buildDirectory env.generatorName)])
    else if ty = "reply" then
      if msg.cookie? ≠ some env.baseCookie then
        (s, [])
      else
        match msg.inReplyTo? with
        | some "handshake" =>
          let step :=
            match s.postHandshake with
            | some c => ({ s with postHandshake := none }, runCont env c)
            | none => (s, [])
          (step.1, step.2 ++ [Action.send env.baseCookie OutMsg.globalSettings])
        | some "globalSettings" =>
          (s, [])
        | some "configure" =>
          (s, [Action.logLine "Configuring done", Action.logLine "Generating...",
               Action.send env.baseCookie OutMsg.compute])
        | some "compute" =>
          ({ s with configured := true },
           [Action.logLine "Getting targets...",
            Action.send env.baseCookie OutMsg.codemodel])
        | some "codemodel" =>
          let parsed := parseCodemodel env msg
          let s1 := { s with targets := parsed.2.1 }
          let doneActs :=
            if parsed.1 = true then
              let targetCount := (getTargets s1).length - 1
              [Action.logLine
                ("Done. Found " ++ toString targetCount ++ " target" ++
                 (if 1 < targetCount then "s" else ""))]
            else []
          let step :=
            match s1.postConfiguration with
            | some c => ({ s1 with postConfiguration := none }, runCont env c)
            | none => (s1, [])
          (step.1, parsed.2.2 ++ doneActs ++ step.2)
        | _ => (s, [])
    else if ty = "progress" then
      (s, [])
    else
      (s, [Action.logLine "server message - <unhandled>"])

/-- Process a list of decoded messages in delivery order, threading the
state and concatenating the actions. -/
def processMessages (env : Env) (s : CMakeState) :
    List Message → CMakeState × List Action
  | [] => (s, [])
  | m :: rest =>
    let r := receiveMessage env s m
    let r2 := processMessages env r.1 rest
    (r2.1, r.2 ++ r2.2)

/-! ## Facade verbs -/

/-- `configure(cleanCache)`: aborts (with a log line) when the server is
not running or no kit is selected; optionally deletes the cache file; then
sends the `configure` request built from the environment.  Never mutates
the session state. -/
def configure (env : Env) (s : CMakeState) (cleanCache : Bool) :
    CMakeState × List Action :=
  if isRunning s = false then
    (s, [Action.logLine "cmake server is not yet running, aborting"])
  else
    match env.kit? with
    | none => (s, [Action.logLine "Not kit selected"])
    | some kit =>
      let cacheActs :=
        if cleanCache && env.cacheFileExists then
          [Action.logLine "Deleting cache file...", Action.deleteCacheFile,
           Action.logLine "Done"]
        else []
      (s, cacheActs ++
          [Action.logLine "Configuring...",
           Action.send env.baseCookie
             (OutMsg.configure
               ["-DCMAKE_BUILD_TYPE=" ++ env.activeConfiguration,
                "-DCMAKE_C_COMPILER:FILEPATH=" ++ kit.compiler,
                "-DCMAKE_CXX_COMPILER:FILEPATH=" ++ kit.compiler,
                "-DCMAKE_LINKER:FILEPATH=" ++ kit.linker])])

/-- `build()`: no-op when the server is not running; when not configured,
stores `launchBuild` as the post-configure continuation and triggers
`configure(false)`; otherwise launches the build directly. -/
def build (env : Env) (s : CMakeState) : CMakeState × List Action :=
  if isRunning s = false then
    (s, [])
  else if s.configured = false then
    configure env { s with postConfiguration := some Cont.launchBuild } false
  else
    (s, runCont env Cont.launchBuild)

/-- `clean()`: same ensure-configured pattern as `build()`. -/
def clean (env : Env) (s : CMakeState) : CMakeState × List Action :=
  if isRunning s = false then
    (s, [Action.logLine "cmake server not running, aborting"])
  else if s.configured = false then
    configure env { s with postConfiguration := some Cont.launchClean } false
  else
    (s, runCont env Cont.launchClean)

/-! ## The version gate in `start` -/

/-- The gate in `start` deciding whether the probed cmake version aborts
the start attempt: mirrors
`if (parseInt(version[1]) < 3 || parseInt(version[2]) < 12)`. -/
def versionRejected (major minor : Nat) : Bool :=
  major < 3 || minor < 12

/-- Modelled from the spec: "if the reported version is below the minimum
supported major.minor, abort" — a version is acceptable when it is at or
above the minimum in the usual major.minor (lexicographic) order, the
minimum being the 3.12 encoded in the code's gate. -/
def specVersionAtLeastMinimum (major minor : Nat) : Bool :=
  3 < major || (major == 3 && 12 ≤ minor)

/-! ## Concrete fixtures used by the claim theorems and witnesses -/

/-- An environment whose active build variant is "Debug". -/
def envDebug : Env :=
  ⟨"simple-cmake-1", "Debug", "/src", "/src/build", "Ninja",
   some ⟨"/usr/bin/gcc", "/usr/bin/ld"⟩, some ["-v"], some "app", 4, false⟩

/-- An environment whose active build variant is "Release". -/
def envRelease : Env :=
  ⟨"simple-cmake-1", "Release", "/src", "/src/build", "Ninja",
   some ⟨"/usr/bin/gcc", "/usr/bin/ld"⟩, some ["-v"], some "app", 4, false⟩

/-- A connected, not-yet-configured session with an empty target model. -/
def stateRunning : CMakeState :=
  ⟨5, true, true, false, [], none, none⟩

/-- A connected session whose target model holds one target from an
earlier successful parse. -/
def statePrior : CMakeState :=
  ⟨5, true, true, true, [("app", ⟨"app", TargetType.Executable⟩)], none, none⟩

/-- The codemodel reply of claim C5: one "Debug" configuration, one
project, targets `app` (EXECUTABLE) and `gen` (UTILITY). -/
def codemodelDebugMsg : Message :=
  Message.mkCodemodelReply "simple-cmake-1"
    [⟨"Debug", some [⟨"project", some [⟨some "app", "EXECUTABLE"⟩,
                                       ⟨some "gen", "UTILITY"⟩]⟩]⟩]

/-! ## Claim C1 — frame decoding across receive events -/

/-- Claim C1, counterexample: the pipe data handler keeps no buffer, so a
valid frame (payload `null`) split across two receive events decodes to no
messages, while the same bytes delivered in one event decode to the one
message — chunk-boundary invariance fails on the code. -/
theorem deliver_split_frame_counterexample :
    ((mkFrame "null".data).take 30 ++ (mkFrame "null".data).drop 30
       = mkFrame "null".data) ∧
    deliver [mkFrame "null".data] = ["null".data] ∧
    deliver [(mkFrame "null".data).take 30, (mkFrame "null".data).drop 30] = [] := by
  decide

/-- Claim C1, amended: decoding keeps no state across receive events — the
output of a sequence of events is the concatenation of what each event
alone yields, and an event is decoded exactly when it alone is a complete
delimiter-bounded frame (in which case it yields its payload); a frame
split across events is dropped, not buffered. -/
theorem deliver_stateless_per_event :
    (∀ payload : List Char, deliver [mkFrame payload] = [payload]) ∧
    (∀ xs ys : List (List Char), deliver (xs ++ ys) = deliver xs ++ deliver ys) := by
  constructor
  · intro payload
    simp [deliver, handleData_mkFrame]
  · intro xs ys
    simp [deliver, List.filterMap_append]

/-! ## Claim C4 — the version gate in `start` -/

/-- Claim C4: the gate `major < 3 || minor < 12` is not "below minimum
3.12": it rejects cmake 4.0.0 (a higher major, at or above the minimum)
because its minor is below 12, and it also rejects 3.10.x while the code's
own log message asks for "at least 3.10". -/
theorem versionRejected_rejects_newer_major :
    versionRejected 4 0 = true ∧ specVersionAtLeastMinimum 4 0 = true ∧
    versionRejected 3 10 = true := by
  decide

/-! ## Claim C5 — codemodel parse happy path and the synthetic target -/

/-- Claim C5: parsing the Debug codemodel reply with active variant
"Debug" succeeds; `getTargets()` returns exactly `["[all]", "app", "gen"]`
with `app` resolved to Executable and `gen` to Utility; and the synthetic
`"[all]"` entry heads `getTargets()` for every state, regardless of parse
outcome. -/
theorem codemodel_debug_getTargets :
    (getTargets (receiveMessage envDebug stateRunning codemodelDebugMsg).1
       = ["[all]", "app", "gen"] ∧
     (receiveMessage envDebug stateRunning codemodelDebugMsg).1.targets
       = [("app", ⟨"app", TargetType.Executable⟩),
          ("gen", ⟨"gen", TargetType.Utility⟩)] ∧
     (parseCodemodel envDebug codemodelDebugMsg).1 = true) ∧
    ∀ s : CMakeState, getTargets s = "[all]" :: s.targets.map Prod.fst := by
  exact ⟨by decide, fun s => rfl⟩

/-! ## Claim C7 — the dirty signal -/

/-- Claim C7: in any connected state, a `dirty` signal only forces the
configured flag to false: the rest of the session state (connection, target
model, continuation slots) is unchanged and nothing is sent or logged. -/
theorem dirty_signal_only_clears_configured (env : Env) (s : CMakeState)
    (h : isRunning s = true) :
    receiveMessage env s (Message.mkSignal "dirty") =
      ({ s with configured := false }, []) := by
  simp [receiveMessage, Message.mkSignal, Message.empty]

/-- Witness for C7 at a concrete connected state. -/
theorem dirty_signal_only_clears_configured_witness :
    receiveMessage envDebug statePrior (Message.mkSignal "dirty") =
      ({ statePrior with configured := false }, []) :=
  dirty_signal_only_clears_configured envDebug statePrior (by decide)

/-! ## Claim C8 — cookie-mismatched replies -/

/-- Claim C8: a reply whose cookie differs from the session cookie is
discarded: the whole session state (flags, target model, continuation
slots) is returned unchanged and no action is performed. -/
theorem cookie_mismatch_reply_is_noop (env : Env) (s : CMakeState)
    (msg : Message) (hty : msg.type? = some "reply")
    (hck : msg.cookie? ≠ some env.baseCookie) :
    receiveMessage env s msg = (s, []) := by
  simp [receiveMessage, hty, hck]

/-- Witness for C8 at a concrete mismatching reply. -/
theorem cookie_mismatch_reply_is_noop_witness :
    receiveMessage envDebug statePrior (Message.mkReply "stale-cookie" "compute") =
      (statePrior, []) :=
  cookie_mismatch_reply_is_noop envDebug statePrior
    (Message.mkReply "stale-cookie" "compute") (by decide) (by decide)

/-! ## Claim C10 — messages without a type field -/

/-- Claim C10: a message with no `type` field is rejected up front: an
error line is logged and the session state (flags, target model,
continuation slots) is returned unchanged, with nothing sent. -/
theorem missing_type_message_is_noop (env : Env) (s : CMakeState)
    (msg : Message) (h : msg.type? = none) :
    receiveMessage env s msg =
      (s, [Action.logLine "server - invalid message layout. Missing type"]) := by
  simp [receiveMessage, h]

/-- Witness for C10 at the empty message. -/
theorem missing_type_message_is_noop_witness :
    receiveMessage envDebug statePrior Message.empty =
      (statePrior, [Action.logLine "server - invalid message layout. Missing type"]) :=
  missing_type_message_is_noop envDebug statePrior Message.empty rfl

/-! ## Claim C2 — configuration-not-found on a non-empty prior model -/

/-- When no configuration entry matches the active variant, the outer
parse loop leaves its accumulator untouched. -/
theorem parseConfigurationEntries_no_match (active : String)
    (cs : List ConfigurationJson) (acc : Bool × Bool × List (String × Target))
    (h : ∀ c ∈ cs, jsToLowerCase c.name ≠ jsToLowerCase active) :
    parseConfigurationEntries active cs acc = acc := by
  induction cs generalizing acc with
  | nil => rfl
  | cons c cs ih =>
    have hc : jsToLowerCase c.name ≠ jsToLowerCase active := h c (by simp)
    have hrest : ∀ x ∈ cs, jsToLowerCase x.name ≠ jsToLowerCase active :=
      fun x hx => h x (by simp [hx])
    simp only [parseConfigurationEntries, List.foldl_cons, hc, if_neg]
    exact ih acc hrest

/-- Claim C2, counterexample: with a prior non-empty target model, active
variant "Release" and a codemodel reply holding only a "Debug" entry, the
configuration-not-found error is reported but the target model is *not*
left at its prior value — `parseCodemodel` clears it first, so it comes
out empty. -/
theorem codemodel_config_not_found_counterexample :
    (Action.logLine "error parsing code model: couldn't find configuration (Release)")
      ∈ (receiveMessage envRelease statePrior
          (Message.mkCodemodelReply "simple-cmake-1" [⟨"Debug", some []⟩])).2 ∧
    (receiveMessage envRelease statePrior
       (Message.mkCodemodelReply "simple-cmake-1" [⟨"Debug", some []⟩])).1.targets
      ≠ statePrior.targets := by
  decide

/-- Claim C2, amended: when the codemodel reply's configurations contain no
entry matching the active variant (case-insensitively), processing the
reply reports the configuration-not-found error and leaves the target
model *empty* (clearing any prior value — so it equals the prior value
only when that was already empty); the configured flag is untouched. -/
theorem codemodel_config_not_found_clears_model (env : Env) (s : CMakeState)
    (configs : List ConfigurationJson)
    (h : ∀ c ∈ configs, jsToLowerCase c.name ≠ jsToLowerCase env.activeConfiguration) :
    ((receiveMessage env s (Message.mkCodemodelReply env.baseCookie configs)).1.targets
       = []) ∧
    (Action.logLine ("error parsing code model: couldn't find configuration ("
        ++ env.activeConfiguration ++ ")"))
      ∈ (receiveMessage env s (Message.mkCodemodelReply env.baseCookie configs)).2 ∧
    (receiveMessage env s (Message.mkCodemodelReply env.baseCookie configs)).1.configured
      = s.configured := by
  have hparse := parseConfigurationEntries_no_match env.activeConfiguration configs
    (false, false, []) h
  cases hpc : s.postConfiguration with
  | none =>
    simp [receiveMessage, Message.mkCodemodelReply, Message.mkReply, Message.empty,
      parseCodemodel, hparse, hpc]
  | some c =>
    simp [receiveMessage, Message.mkCodemodelReply, Message.mkReply, Message.empty,
      parseCodemodel, hparse, hpc]

/-- Witness for the amended C2 at a concrete input. -/
theorem codemodel_config_not_found_clears_model_witness :
    ((receiveMessage envRelease statePrior
        (Message.mkCodemodelReply "simple-cmake-1" [⟨"Debug", some []⟩])).1.targets
       = []) ∧
    (Action.logLine "error parsing code model: couldn't find configuration (Release)")
      ∈ (receiveMessage envRelease statePrior
          (Message.mkCodemodelReply "simple-cmake-1" [⟨"Debug", some []⟩])).2 ∧
    (receiveMessage envRelease statePrior
       (Message.mkCodemodelReply "simple-cmake-1" [⟨"Debug", some []⟩])).1.configured
      = statePrior.configured :=
  codemodel_config_not_found_clears_model envRelease statePrior
    [⟨"Debug", some []⟩] (by decide)

/-! ## Claim C3 — hello without protocol major 1 -/

/-- Claim C3, counterexample: from a connected state, a hello advertising
only major 2 leaves the session exactly as it was — still running, the
subprocess not killed and the pipe not closed (the state differs from what
`stop` would produce), and the only action is the error log line; in
particular the session is *not* stopped. -/
theorem hello_unsupported_not_stopped_counterexample :
    (receiveMessage envDebug stateRunning (Message.mkHello [⟨2⟩])).1 = stateRunning ∧
    isRunning (receiveMessage envDebug stateRunning (Message.mkHello [⟨2⟩])).1 = true ∧
    (stop stateRunning).1.cmakePid = -1 ∧
    (stop stateRunning).1.cmakePipe = false ∧
    (receiveMessage envDebug stateRunning (Message.mkHello [⟨2⟩])).2
      = [Action.logLine "server - protocol version 1.x not supported. Please update your CMake to a more recent version."] := by
  decide

/-- Claim C3, amended: when the hello's advertised versions do not list
major 1, the engine logs the unsupported-protocol error and sends no
handshake request, but it does not stop the session: the state is returned
unchanged (subprocess and pipe untouched). -/
theorem hello_unsupported_logs_and_ignores (env : Env) (s : CMakeState)
    (versions : List ProtocolVersion) (h : ∀ v ∈ versions, v.major ≠ 1) :
    receiveMessage env s (Message.mkHello versions) =
      (s, [Action.logLine "server - protocol version 1.x not supported. Please update your CMake to a more recent version."]) := by
  have hany : (versions.any fun v => v.major == 1) = false := by
    simp only [List.any_eq_false]
    intro v hv
    simpa using h v hv
  simp [receiveMessage, Message.mkHello, Message.empty, hany]

/-- Witness for the amended C3 at a concrete hello. -/
theorem hello_unsupported_logs_and_ignores_witness :
    receiveMessage envDebug stateRunning (Message.mkHello [⟨2⟩]) =
      (stateRunning, [Action.logLine "server - protocol version 1.x not supported. Please update your CMake to a more recent version."]) :=
  hello_unsupported_logs_and_ignores envDebug stateRunning [⟨2⟩] (by decide)

/-! ## Claim C9 — compute reply, then a failing codemodel parse -/

/-- Claim C9: a reply to `compute` with the session cookie sets the
configured flag and immediately sends the `codemodel` request; a
subsequent codemodel reply whose parse fails (no configuration matches the
active variant) leaves the configured flag true and the session still
connected — the failure neither resets the flag nor tears the engine
down. -/
theorem compute_sets_configured_then_codemodel_failure_keeps_it (env : Env)
    (s : CMakeState) (configs : List ConfigurationJson)
    (h : ∀ c ∈ configs, jsToLowerCase c.name ≠ jsToLowerCase env.activeConfiguration) :
    ((receiveMessage env s (Message.mkReply env.baseCookie "compute")).1.configured
       = true) ∧
    ((receiveMessage env s (Message.mkReply env.baseCookie "compute")).2
       = [Action.logLine "Getting targets...",
          Action.send env.baseCookie OutMsg.codemodel]) ∧
    ((receiveMessage env
        (receiveMessage env s (Message.mkReply env.baseCookie "compute")).1
        (Message.mkCodemodelReply env.baseCookie configs)).1.configured = true) ∧
    (isRunning (receiveMessage env
        (receiveMessage env s (Message.mkReply env.baseCookie "compute")).1
        (Message.mkCodemodelReply env.baseCookie configs)).1 = isRunning s) := by
  have hparse := parseConfigurationEntries_no_match env.activeConfiguration configs
    (false, false, []) h
  cases hpc : s.postConfiguration with
  | none =>
    simp [receiveMessage, Message.mkCodemodelReply, Message.mkReply, Message.empty,
      parseCodemodel, hparse, hpc, isRunning]
  | some c =>
    simp [receiveMessage, Message.mkCodemodelReply, Message.mkReply, Message.empty,
      parseCodemodel, hparse, hpc, isRunning]

/-- Witness for C9 at a concrete input. -/
theorem compute_sets_configured_then_codemodel_failure_keeps_it_witness :
    ((receiveMessage envRelease stateRunning
        (Message.mkReply "simple-cmake-1" "compute")).1.configured = true) ∧
    ((receiveMessage envRelease stateRunning
        (Message.mkReply "simple-cmake-1" "compute")).2
       = [Action.logLine "Getting targets...",
          Action.send "simple-cmake-1" OutMsg.codemodel]) ∧
    ((receiveMessage envRelease
        (receiveMessage envRelease stateRunning
          (Message.mkReply "simple-cmake-1" "compute")).1
        (Message.mkCodemodelReply "simple-cmake-1" [⟨"Debug", some []⟩])).1.configured
       = true) ∧
    (isRunning (receiveMessage envRelease
        (receiveMessage envRelease stateRunning
          (Message.mkReply "simple-cmake-1" "compute")).1
        (Message.mkCodemodelReply "simple-cmake-1" [⟨"Debug", some []⟩])).1
       = isRunning stateRunning) :=
  compute_sets_configured_then_codemodel_failure_keeps_it envRelease stateRunning
    [⟨"Debug", some []⟩] (by decide)

/-! ## Claim C6 — `build()` on an unconfigured session -/

/-- Projection of an action onto the two events claim C6 orders: the
`configure` wire request and the build-tool invocation. -/
def keyEvent : Action → Option String
  | Action.send _ (OutMsg.configure _) => some "configure request"
  | Action.execBuild _ => some "build invocation"
  | _ => none

/-- The claim-C6-relevant events of an action trace, in order. -/
def keyEvents (acts : List Action) : List String :=
  acts.filterMap keyEvent

/-- Claim C6: calling `build()` on a connected but unconfigured session
(kit selected, no continuation pending), then delivering the configure,
compute and codemodel replies of the configure chain, produces exactly one
`configure` request followed by exactly one build invocation — in that
order, never the reverse, never duplicated — and the post-configure
continuation slot ends up cleared. -/
theorem build_unconfigured_configures_once_then_builds_once (env : Env)
    (s : CMakeState) (k : Kit) (hrun : isRunning s = true)
    (hconf : s.configured = false) (hpost : s.postConfiguration = none)
    (hkit : env.kit? = some k) (hactive : env.activeConfiguration = "Debug") :
    keyEvents ((build env s).2 ++
      (processMessages env (build env s).1
        [Message.mkReply env.baseCookie "configure",
         Message.mkReply env.baseCookie "compute",
         Message.mkCodemodelReply env.baseCookie
           [⟨"Debug", some [⟨"project", some [⟨some "app", "EXECUTABLE"⟩]⟩]⟩]]).2)
      = ["configure request", "build invocation"] ∧
    (processMessages env (build env s).1
        [Message.mkReply env.baseCookie "configure",
         Message.mkReply env.baseCookie "compute",
         Message.mkCodemodelReply env.baseCookie
           [⟨"Debug", some [⟨"project", some [⟨some "app", "EXECUTABLE"⟩]⟩]⟩]]).1.postConfiguration
      = none := by
  have hrun2 : ¬s.cmakePid = -1 ∧ s.cmakePipe = true := by
    simpa [isRunning, Bool.and_eq_true, bne_iff_ne] using hrun
  obtain ⟨h1, h2⟩ := hrun2
  simp [build, configure, processMessages, receiveMessage, isRunning, h1, h2, hconf,
    hpost, hkit, hactive, Message.mkReply, Message.mkCodemodelReply, Message.empty,
    parseCodemodel, parseConfigurationEntries, parseProjectEntries,
    parseTargetEntries, Target.getType, jsObjectSet, getTargets, runCont,
    keyEvents, keyEvent, List.filterMap_cons]

/-- Witness for C6 at a concrete session. -/
theorem build_unconfigured_configures_once_then_builds_once_witness :
    keyEvents ((build envDebug stateRunning).2 ++
      (processMessages envDebug (build envDebug stateRunning).1
        [Message.mkReply "simple-cmake-1" "configure",
         Message.mkReply "simple-cmake-1" "compute",
         Message.mkCodemodelReply "simple-cmake-1"
           [⟨"Debug", some [⟨"project", some [⟨some "app", "EXECUTABLE"⟩]⟩]⟩]]).2)
      = ["configure request", "build invocation"] ∧
    (processMessages envDebug (build envDebug stateRunning).1
        [Message.mkReply "simple-cmake-1" "configure",
         Message.mkReply "simple-cmake-1" "compute",
         Message.mkCodemodelReply "simple-cmake-1"
           [⟨"Debug", some [⟨"project", some [⟨some "app", "EXECUTABLE"⟩]⟩]⟩]]).1.postConfiguration
      = none :=
  build_unconfigured_configures_once_then_builds_once envDebug stateRunning
    ⟨"/usr/bin/gcc", "/usr/bin/ld"⟩ (by decide) (by decide) (by decide)
    (by decide) (by decide)

end SimpleCMake
